import Mathlib

/-!
Shallow embedding of the projectile / first-person-controller core of the
three-physics demo (src/unnamed/part_000, the FPS variant).

The sphere lifecycle (shootSphere, updateSpheres, the click handler) is
embedded over ℚ: the code only adds, scales, compares and copies
coordinates there, so exact rationals model the float arithmetic faithfully
and keep everything decidable.  The first-person controller (tick) uses
THREE.Vector3.normalize, i.e. a square root, so it is embedded over ℝ.
-/

namespace ThreePhysics

/-- A 3-component vector (THREE.Vector3 / CANNON.Vec3). -/
@[ext]
structure Vec3 (α : Type) where
  x : α
  y : α
  z : α
  deriving DecidableEq, Repr

/-- A quaternion (THREE.Quaternion / CANNON.Quaternion), stored as x y z w. -/
@[ext]
structure Quat (α : Type) where
  x : α
  y : α
  z : α
  w : α
  deriving DecidableEq, Repr

/-- Componentwise addition (Vector3.add). -/
def Vec3.add {α : Type} [Add α] (a b : Vec3 α) : Vec3 α :=
  ⟨a.x + b.x, a.y + b.y, a.z + b.z⟩

/-- Scalar multiplication (Vector3.multiplyScalar). -/
def Vec3.smul {α : Type} [Mul α] (a : Vec3 α) (s : α) : Vec3 α :=
  ⟨a.x * s, a.y * s, a.z * s⟩

/-- The identity quaternion, the default orientation of a fresh
CANNON.Body and a fresh THREE.Mesh. -/
def quatIdentity : Quat ℚ := ⟨0, 0, 0, 1⟩

/-- The state of one CANNON.Body that the demo reads or writes. -/
@[ext]
structure Body where
  position : Vec3 ℚ
  quaternion : Quat ℚ
  velocity : Vec3 ℚ
  mass : ℚ
  linearDamping : ℚ
  shapeRadius : ℚ
  deriving DecidableEq, Repr

/-- The state of one projectile THREE.Mesh that the demo reads or writes. -/
@[ext]
structure Mesh where
  position : Vec3 ℚ
  quaternion : Quat ℚ
  castShadow : Bool
  deriving DecidableEq, Repr

/-- One element of the sphereToUpdate registry: a mesh paired with its body.
The numeric id models object identity of the mesh/body pair, used to track
membership in the scene graph and the physics world. -/
@[ext]
structure SphereEntry where
  id : ℕ
  mesh : Mesh
  body : Body
  deriving DecidableEq, Repr

/-- The mutable state the projectile lifecycle touches: the sphereToUpdate
array (insertion order, oldest first), the ids of projectile meshes owned by
the scene graph, the ids of projectile bodies owned by the physics world,
and a fresh-id allocator modelling object allocation. -/
@[ext]
structure SimState where
  sphereToUpdate : List SphereEntry
  sceneMeshes : List ℕ
  worldBodies : List ℕ
  nextId : ℕ
  deriving DecidableEq, Repr

/-- The state before any sphere is shot: empty registry, no projectile
meshes, no projectile bodies. -/
def initSimState : SimState := ⟨[], [], [], 0⟩

/-- shootSphere: spawn one projectile.  The camera position and the camera's
world direction (camera.getWorldDirection) are external inputs.  The body is
placed one unit in front of the camera, its velocity is the direction scaled
by shootVelocity = 20; the mesh is created at the default transform and
pushed into the registry together with the body. -/
def shootSphere (s : SimState) (cameraPosition cameraDirection : Vec3 ℚ) : SimState :=
  let radius : ℚ := mkRat 1 2
  let startPosition := cameraPosition.add (cameraDirection.smul 1)
  let shootVelocity : ℚ := 20
  let body : Body :=
    { position := startPosition
      quaternion := quatIdentity
      velocity := ⟨cameraDirection.x * shootVelocity,
                   cameraDirection.y * shootVelocity,
                   cameraDirection.z * shootVelocity⟩
      mass := 2
      linearDamping := mkRat 1 10
      shapeRadius := radius }
  let mesh : Mesh :=
    { position := ⟨0, 0, 0⟩
      quaternion := quatIdentity
      castShadow := true }
  { sphereToUpdate := s.sphereToUpdate ++ [⟨s.nextId, mesh, body⟩]
    sceneMeshes := s.sceneMeshes ++ [s.nextId]
    worldBodies := s.worldBodies ++ [s.nextId]
    nextId := s.nextId + 1 }

/-- Whether updateSpheres culls this entry: body.position.y < -50 (strict). -/
def culled (e : SphereEntry) : Bool := decide (e.body.position.y < -50)

/-- The else-branch of updateSpheres: copy the body transform onto the mesh
(mesh.position.copy(body.position); mesh.quaternion.copy(body.quaternion)). -/
def syncEntry (e : SphereEntry) : SphereEntry :=
  { e with mesh := { e.mesh with position := e.body.position
                                 quaternion := e.body.quaternion } }

/-- The loop body of updateSpheres.  The source iterates the array from the
last index down to 0 and splices culled entries out in place; because each
iteration inspects a distinct entry and splicing at index i does not move
the not-yet-visited entries 0..i-1, the net effect on the array is
entrywise: an entry is kept (with its mesh transform synced) iff it is not
culled, and the ids of culled entries are collected for removal from the
scene graph and the physics world.  Returns (kept entries, removed ids). -/
def updateLoop : List SphereEntry → List SphereEntry × List ℕ
  | [] => ([], [])
  | e :: rest =>
    let (kept, removed) := updateLoop rest
    if e.body.position.y < -50 then
      (kept, e.id :: removed)
    else
      (syncEntry e :: kept, removed)

/-- updateSpheres: for each registry entry (reverse order in the source),
cull it when its body is below y = -50 — removing the mesh from the scene,
the body from the world and the entry from the registry — otherwise copy
the body transform onto the mesh. -/
def updateSpheres (s : SimState) : SimState :=
  let (kept, removed) := updateLoop s.sphereToUpdate
  { s with
    sphereToUpdate := kept
    sceneMeshes := s.sceneMeshes.filter (fun i => !(removed.contains i))
    worldBodies := s.worldBodies.filter (fun i => !(removed.contains i)) }

/-- The click handler: window.addEventListener click fires shootSphere only
when controls.isLocked. -/
def onClick (isLocked : Bool) (cameraPosition cameraDirection : Vec3 ℚ)
    (s : SimState) : SimState :=
  if isLocked then shootSphere s cameraPosition cameraDirection else s

/-- One registry-affecting operation of a frame: a spawn (click while
locked) or a frame sync (updateSpheres). -/
inductive FrameOp
  | shoot (cameraPosition cameraDirection : Vec3 ℚ)
  | sync
  deriving DecidableEq, Repr

/-- Apply one operation to the simulation state. -/
def applyOp (s : SimState) : FrameOp → SimState
  | .shoot p d => shootSphere s p d
  | .sync => updateSpheres s

/-- Run a sequence of operations from the initial (empty) state. -/
def runOps (ops : List FrameOp) : SimState := ops.foldl applyOp initSimState

/-! ### Structural lemmas about updateLoop and updateSpheres -/

lemma updateLoop_fst (l : List SphereEntry) :
    (updateLoop l).1 = (l.filter (fun e => !culled e)).map syncEntry := by
  induction l with
  | nil => rfl
  | cons e rest ih =>
    by_cases h : e.body.position.y < -50
    · simp [updateLoop, h, ih, List.filter_cons, culled]
    · simp [updateLoop, h, ih, List.filter_cons, culled]

lemma updateLoop_snd (l : List SphereEntry) :
    (updateLoop l).2 = (l.filter culled).map SphereEntry.id := by
  induction l with
  | nil => rfl
  | cons e rest ih =>
    by_cases h : e.body.position.y < -50
    · simp [updateLoop, h, ih, List.filter_cons, culled]
    · simp [updateLoop, h, ih, List.filter_cons, culled]

lemma syncEntry_id (e : SphereEntry) : (syncEntry e).id = e.id := rfl

lemma syncEntry_body (e : SphereEntry) : (syncEntry e).body = e.body := rfl

lemma culled_syncEntry (e : SphereEntry) : culled (syncEntry e) = culled e := rfl

lemma syncEntry_idem (e : SphereEntry) : syncEntry (syncEntry e) = syncEntry e := rfl

lemma updateSpheres_sphereToUpdate (s : SimState) :
    (updateSpheres s).sphereToUpdate
      = (s.sphereToUpdate.filter (fun e => !culled e)).map syncEntry := by
  simp [updateSpheres, updateLoop_fst]

lemma updateSpheres_sceneMeshes (s : SimState) :
    (updateSpheres s).sceneMeshes
      = s.sceneMeshes.filter
          (fun i => !(((s.sphereToUpdate.filter culled).map SphereEntry.id).contains i)) := by
  simp [updateSpheres, updateLoop_snd]

lemma updateSpheres_worldBodies (s : SimState) :
    (updateSpheres s).worldBodies
      = s.worldBodies.filter
          (fun i => !(((s.sphereToUpdate.filter culled).map SphereEntry.id).contains i)) := by
  simp [updateSpheres, updateLoop_snd]

lemma updateSpheres_nextId (s : SimState) :
    (updateSpheres s).nextId = s.nextId := by
  simp [updateSpheres]

/-! ### Removal of culled ids from scene graph and physics world -/

lemma filter_not_contains_map (l : List SphereEntry) (R : List ℕ)
    (hR : ∀ e ∈ l, (e.id ∈ R ↔ culled e = true)) :
    (l.map SphereEntry.id).filter (fun i => !(R.contains i))
      = (l.filter (fun e => !culled e)).map SphereEntry.id := by
  induction l with
  | nil => rfl
  | cons e t ih =>
    have he := hR e (List.mem_cons_self e t)
    have ht : ∀ e' ∈ t, (e'.id ∈ R ↔ culled e' = true) :=
      fun e' h' => hR e' (List.mem_cons_of_mem e h')
    have ih' := ih ht
    simp only [List.elem_eq_mem] at ih'
    cases hc : culled e with
    | true =>
      have hmem : e.id ∈ R := he.mpr hc
      simp [List.filter_cons, hmem, hc, ih']
    | false =>
      have hmem : e.id ∉ R := fun hm => by simp [he.mp hm] at hc
      simp [List.filter_cons, hmem, hc, ih']

lemma mem_removed_iff_culled (l : List SphereEntry)
    (hnd : (l.map SphereEntry.id).Nodup) (e : SphereEntry) (he : e ∈ l) :
    e.id ∈ (l.filter culled).map SphereEntry.id ↔ culled e = true := by
  constructor
  · intro hm
    obtain ⟨e', he', hid⟩ := List.mem_map.mp hm
    obtain ⟨he'l, hce'⟩ := List.mem_filter.mp he'
    have he'e : e' = e := List.inj_on_of_nodup_map hnd he'l he hid
    rw [he'e] at hce'
    exact hce'
  · intro hc
    exact List.mem_map_of_mem _ (List.mem_filter.mpr ⟨he, hc⟩)

/-- If the entry is culled, its id disappears from the registry, the scene
graph and the physics world in the same updateSpheres step. -/
lemma culled_removed_everywhere (s : SimState)
    (hnd : (s.sphereToUpdate.map SphereEntry.id).Nodup)
    (e : SphereEntry) (he : e ∈ s.sphereToUpdate)
    (h : e.body.position.y < -50) :
    (∀ e' ∈ (updateSpheres s).sphereToUpdate, e'.id ≠ e.id)
    ∧ e.id ∉ (updateSpheres s).sceneMeshes
    ∧ e.id ∉ (updateSpheres s).worldBodies := by
  have hce : culled e = true := decide_eq_true h
  refine ⟨?_, ?_, ?_⟩
  · intro e' he' hid
    rw [updateSpheres_sphereToUpdate] at he'
    obtain ⟨e₀, he₀, rfl⟩ := List.mem_map.mp he'
    obtain ⟨he₀l, hke₀⟩ := List.mem_filter.mp he₀
    rw [syncEntry_id] at hid
    have he₀e : e₀ = e := List.inj_on_of_nodup_map hnd he₀l he hid
    rw [he₀e, hce] at hke₀
    simp at hke₀
  · intro hmem
    rw [updateSpheres_sceneMeshes] at hmem
    have hpred := (List.mem_filter.mp hmem).2
    have hin : e.id ∈ (s.sphereToUpdate.filter culled).map SphereEntry.id :=
      (mem_removed_iff_culled _ hnd e he).mpr hce
    simp [hin] at hpred
  · intro hmem
    rw [updateSpheres_worldBodies] at hmem
    have hpred := (List.mem_filter.mp hmem).2
    have hin : e.id ∈ (s.sphereToUpdate.filter culled).map SphereEntry.id :=
      (mem_removed_iff_culled _ hnd e he).mpr hce
    simp [hin] at hpred

/-- If the entry is not culled, it survives the updateSpheres step with its
mesh transform copied from the body, and its id stays in the scene graph and
the physics world. -/
lemma survivor_synced (s : SimState)
    (hnd : (s.sphereToUpdate.map SphereEntry.id).Nodup)
    (e : SphereEntry) (he : e ∈ s.sphereToUpdate)
    (h : ¬ e.body.position.y < -50) :
    syncEntry e ∈ (updateSpheres s).sphereToUpdate
    ∧ (e.id ∈ s.sceneMeshes → e.id ∈ (updateSpheres s).sceneMeshes)
    ∧ (e.id ∈ s.worldBodies → e.id ∈ (updateSpheres s).worldBodies) := by
  have hce : culled e = false := decide_eq_false h
  have hnotin : e.id ∉ (s.sphereToUpdate.filter culled).map SphereEntry.id :=
    fun hm => by simp [(mem_removed_iff_culled _ hnd e he).mp hm] at hce
  refine ⟨?_, ?_, ?_⟩
  · rw [updateSpheres_sphereToUpdate]
    exact List.mem_map_of_mem _ (List.mem_filter.mpr ⟨he, by simp [hce]⟩)
  · intro hmem
    rw [updateSpheres_sceneMeshes]
    exact List.mem_filter.mpr ⟨hmem, by simp [hnotin]⟩
  · intro hmem
    rw [updateSpheres_worldBodies]
    exact List.mem_filter.mpr ⟨hmem, by simp [hnotin]⟩

/-! ### The coupling invariant between registry, scene graph and world -/

/-- States reachable by the demo: the projectile meshes in the scene and the
projectile bodies in the world are exactly the ones paired in the registry,
ids are distinct, and every live id was allocated before nextId. -/
def GoodState (s : SimState) : Prop :=
  s.sceneMeshes = s.sphereToUpdate.map SphereEntry.id
  ∧ s.worldBodies = s.sphereToUpdate.map SphereEntry.id
  ∧ (s.sphereToUpdate.map SphereEntry.id).Nodup
  ∧ ∀ e ∈ s.sphereToUpdate, e.id < s.nextId

lemma goodState_init : GoodState initSimState := by
  simp [GoodState, initSimState]

lemma goodState_shootSphere (s : SimState) (p d : Vec3 ℚ) (h : GoodState s) :
    GoodState (shootSphere s p d) := by
  obtain ⟨h1, h2, h3, h4⟩ := h
  have hfresh : s.nextId ∉ s.sphereToUpdate.map SphereEntry.id := by
    intro hmem
    obtain ⟨e, he, hid⟩ := List.mem_map.mp hmem
    exact absurd (hid ▸ h4 e he) (lt_irrefl _)
  refine ⟨?_, ?_, ?_, ?_⟩
  · simp [shootSphere, h1]
  · simp [shootSphere, h2]
  · simp only [shootSphere, List.map_append, List.map_cons, List.map_nil]
    exact List.Nodup.append h3 (List.nodup_singleton _)
      (by simpa [List.disjoint_singleton] using hfresh)
  · intro e he
    simp only [shootSphere, List.mem_append, List.mem_singleton] at he
    rcases he with he | rfl
    · exact Nat.lt_trans (h4 e he) (Nat.lt_succ_self _)
    · exact Nat.lt_succ_self _

lemma goodState_updateSpheres (s : SimState) (h : GoodState s) :
    GoodState (updateSpheres s) := by
  obtain ⟨h1, h2, h3, h4⟩ := h
  have hids : (updateSpheres s).sphereToUpdate.map SphereEntry.id
      = (s.sphereToUpdate.filter (fun e => !culled e)).map SphereEntry.id := by
    rw [updateSpheres_sphereToUpdate, List.map_map]
    simp [Function.comp_def, syncEntry_id]
  have hscene : (updateSpheres s).sceneMeshes
      = (s.sphereToUpdate.filter (fun e => !culled e)).map SphereEntry.id := by
    rw [updateSpheres_sceneMeshes, h1,
      filter_not_contains_map _ _ (fun e he => mem_removed_iff_culled _ h3 e he)]
  have hworld : (updateSpheres s).worldBodies
      = (s.sphereToUpdate.filter (fun e => !culled e)).map SphereEntry.id := by
    rw [updateSpheres_worldBodies, h2,
      filter_not_contains_map _ _ (fun e he => mem_removed_iff_culled _ h3 e he)]
  refine ⟨?_, ?_, ?_, ?_⟩
  · rw [hscene, hids]
  · rw [hworld, hids]
  · rw [hids]
    exact h3.sublist ((List.filter_sublist _).map _)
  · intro e he
    rw [updateSpheres_nextId]
    rw [updateSpheres_sphereToUpdate] at he
    obtain ⟨e₀, he₀, rfl⟩ := List.mem_map.mp he
    rw [syncEntry_id]
    exact h4 e₀ (List.mem_filter.mp he₀).1

lemma goodState_applyOp (s : SimState) (h : GoodState s) (op : FrameOp) :
    GoodState (applyOp s op) := by
  cases op with
  | shoot p d => exact goodState_shootSphere s p d h
  | sync => exact goodState_updateSpheres s h

lemma goodState_runOps (ops : List FrameOp) : GoodState (runOps ops) := by
  have key : ∀ s, GoodState s → GoodState (ops.foldl applyOp s) := by
    induction ops with
    | nil => exact fun s h => h
    | cons op t ih =>
      intro s h
      rw [List.foldl_cons]
      exact ih _ (goodState_applyOp s h op)
  exact key _ goodState_init

/-! ### Concrete demonstration states used by the witnesses -/

/-- A body resting at vertical position y, otherwise in the shape a spawned
projectile body has. -/
def demoBody (y : ℚ) : Body :=
  { position := ⟨0, y, 0⟩
    quaternion := quatIdentity
    velocity := ⟨0, 0, 0⟩
    mass := 2
    linearDamping := mkRat 1 10
    shapeRadius := mkRat 1 2 }

/-- A projectile mesh at the default transform. -/
def demoMesh : Mesh := ⟨⟨0, 0, 0⟩, quatIdentity, true⟩

/-- A registry holding one entry exactly at the cull threshold (y = -50) and
one entry strictly below it (y = -51). -/
def cullDemoState : SimState :=
  ⟨[⟨0, demoMesh, demoBody (-50)⟩, ⟨1, demoMesh, demoBody (-51)⟩], [0, 1], [0, 1], 2⟩

/-- One spawn fired from a camera at (0, -100, 0) looking along world +Z:
the projectile starts below the cull threshold. -/
def demoShotOps : List FrameOp := [FrameOp.shoot ⟨0, -100, 0⟩ ⟨0, 0, 1⟩]

/-- The entry that demoShotOps creates. -/
def demoShotEntry : SphereEntry :=
  ⟨0, demoMesh,
    { position := ⟨0, -100, 1⟩
      quaternion := quatIdentity
      velocity := ⟨0, 0, 20⟩
      mass := 2
      linearDamping := mkRat 1 10
      shapeRadius := mkRat 1 2 }⟩

/-! ### Claims about the projectile lifecycle -/

/-- Claim C1: in the frame-sync step (updateSpheres) an entry is removed —
mesh out of the scene, body out of the world, entry out of the registry —
iff its body sits strictly below the cull threshold -50; an entry exactly at
-50 is kept, and every kept entry has the position and orientation of its
mesh set equal to those of its body. -/
theorem cull_iff_below_threshold (s : SimState)
    (hnd : (s.sphereToUpdate.map SphereEntry.id).Nodup)
    (e : SphereEntry) (he : e ∈ s.sphereToUpdate) :
    (e.body.position.y < -50 →
        (∀ e' ∈ (updateSpheres s).sphereToUpdate, e'.id ≠ e.id)
        ∧ e.id ∉ (updateSpheres s).sceneMeshes
        ∧ e.id ∉ (updateSpheres s).worldBodies)
    ∧ (¬ e.body.position.y < -50 →
        syncEntry e ∈ (updateSpheres s).sphereToUpdate
        ∧ (syncEntry e).mesh.position = e.body.position
        ∧ (syncEntry e).mesh.quaternion = e.body.quaternion
        ∧ (e.id ∈ s.sceneMeshes → e.id ∈ (updateSpheres s).sceneMeshes)
        ∧ (e.id ∈ s.worldBodies → e.id ∈ (updateSpheres s).worldBodies)) := by
  constructor
  · intro h
    exact culled_removed_everywhere s hnd e he h
  · intro h
    obtain ⟨hk, hs, hw⟩ := survivor_synced s hnd e he h
    exact ⟨hk, rfl, rfl, hs, hw⟩

/-- Witness for C1 at a concrete two-entry state: the entry exactly at the
threshold survives with its mesh synced, the entry one unit below is culled
from registry, scene and world. -/
theorem cull_iff_below_threshold_witness :
    ((cullDemoState.sphereToUpdate.map SphereEntry.id).Nodup
      ∧ (⟨0, demoMesh, demoBody (-50)⟩ : SphereEntry) ∈ cullDemoState.sphereToUpdate
      ∧ ¬ (demoBody (-50)).position.y < -50
      ∧ syncEntry ⟨0, demoMesh, demoBody (-50)⟩ ∈ (updateSpheres cullDemoState).sphereToUpdate)
    ∧ ((⟨1, demoMesh, demoBody (-51)⟩ : SphereEntry) ∈ cullDemoState.sphereToUpdate
      ∧ (demoBody (-51)).position.y < -50
      ∧ (1 : ℕ) ∉ (updateSpheres cullDemoState).sceneMeshes) :=
  ⟨⟨by decide, by decide, by decide,
      ((cull_iff_below_threshold cullDemoState (by decide)
          ⟨0, demoMesh, demoBody (-50)⟩ (by decide)).2 (by decide)).1⟩,
    ⟨by decide, by decide,
      ((cull_iff_below_threshold cullDemoState (by decide)
          ⟨1, demoMesh, demoBody (-51)⟩ (by decide)).1 (by decide)).2.1⟩⟩

/-- Claim C2: along every finite sequence of spawn and frame-sync operations
from the empty registry, the live-mesh count, live-body count and registry
size coincide; each spawn adds exactly one of each, and a cull removes mesh,
body and entry in the same step. -/
theorem registry_counts_invariant (ops : List FrameOp) :
    ((runOps ops).sceneMeshes.length = (runOps ops).sphereToUpdate.length
      ∧ (runOps ops).worldBodies.length = (runOps ops).sphereToUpdate.length)
    ∧ (∀ p d : Vec3 ℚ,
        (shootSphere (runOps ops) p d).sphereToUpdate.length
            = (runOps ops).sphereToUpdate.length + 1
        ∧ (shootSphere (runOps ops) p d).sceneMeshes.length
            = (runOps ops).sceneMeshes.length + 1
        ∧ (shootSphere (runOps ops) p d).worldBodies.length
            = (runOps ops).worldBodies.length + 1)
    ∧ (∀ e ∈ (runOps ops).sphereToUpdate, e.body.position.y < -50 →
        (∀ e' ∈ (updateSpheres (runOps ops)).sphereToUpdate, e'.id ≠ e.id)
        ∧ e.id ∉ (updateSpheres (runOps ops)).sceneMeshes
        ∧ e.id ∉ (updateSpheres (runOps ops)).worldBodies) := by
  obtain ⟨h1, h2, h3, _⟩ := goodState_runOps ops
  refine ⟨⟨by rw [h1, List.length_map], by rw [h2, List.length_map]⟩, ?_, ?_⟩
  · intro p d
    refine ⟨?_, ?_, ?_⟩ <;> simp [shootSphere]
  · intro e he h
    exact culled_removed_everywhere _ h3 e he h

/-- Witness for C2: after one spawn from a camera below the threshold, the
spawned entry is live, strictly below the threshold, and one sync removes
its mesh from the scene. -/
theorem registry_counts_invariant_witness :
    demoShotEntry ∈ (runOps demoShotOps).sphereToUpdate
    ∧ demoShotEntry.body.position.y < -50
    ∧ demoShotEntry.id ∉ (updateSpheres (runOps demoShotOps)).sceneMeshes := by
  have hm : demoShotEntry ∈ (runOps demoShotOps).sphereToUpdate := by
    norm_num [runOps, demoShotOps, applyOp, shootSphere, initSimState,
      demoShotEntry, demoMesh, quatIdentity, Vec3.add, Vec3.smul]
  exact ⟨hm, by decide,
    ((registry_counts_invariant demoShotOps).2.2 demoShotEntry hm (by decide)).2.1⟩

/-- Claim C6: a click while the pointer capture is inactive spawns nothing:
the state — registry, scene meshes, world bodies — is untouched, and a click
while active is exactly a shootSphere. -/
theorem click_inactive_noop (p d : Vec3 ℚ) (s : SimState) :
    onClick false p d s = s
    ∧ (onClick false p d s).sphereToUpdate.length = s.sphereToUpdate.length
    ∧ (onClick false p d s).sceneMeshes = s.sceneMeshes
    ∧ (onClick false p d s).worldBodies = s.worldBodies
    ∧ onClick true p d s = shootSphere s p d :=
  ⟨rfl, rfl, rfl, rfl, rfl⟩

/-- Claim C7: a spawn fired while the capture is active with the camera
facing world +Z appends an entry whose body has velocity (0, 0, 20) — the
forward direction scaled by the launch speed 20 — and position equal to the
camera position plus (0, 0, 1). -/
theorem shoot_facing_plus_z (s : SimState) (cameraPosition : Vec3 ℚ) :
    ((onClick true cameraPosition ⟨0, 0, 1⟩ s).sphereToUpdate.getLast?.map
        (fun e => (e.body.position, e.body.velocity)))
      = some (⟨cameraPosition.x, cameraPosition.y, cameraPosition.z + 1⟩, ⟨0, 0, 20⟩) := by
  show ((shootSphere s cameraPosition ⟨0, 0, 1⟩).sphereToUpdate.getLast?.map
      (fun e => (e.body.position, e.body.velocity))) = _
  simp [shootSphere, List.getLast?_concat, Vec3.add, Vec3.smul]

/-- Claim C9: the frame-sync step is idempotent — a second updateSpheres
with no physics advance in between changes nothing: not a mesh transform,
not the registry, not the scene, not the world. -/
theorem sync_idempotent (s : SimState) :
    updateSpheres (updateSpheres s) = updateSpheres s := by
  have hreg : (updateSpheres s).sphereToUpdate
      = (s.sphereToUpdate.filter (fun e => !culled e)).map syncEntry :=
    updateSpheres_sphereToUpdate s
  have hall : ∀ e ∈ (updateSpheres s).sphereToUpdate, culled e = false := by
    intro e he
    rw [hreg] at he
    obtain ⟨e₀, he₀, rfl⟩ := List.mem_map.mp he
    have := (List.mem_filter.mp he₀).2
    rw [culled_syncEntry]
    simpa using this
  have hkeep : (updateSpheres s).sphereToUpdate.filter (fun e => !culled e)
      = (updateSpheres s).sphereToUpdate :=
    List.filter_eq_self.mpr (fun e he => by simp [hall e he])
  have hrm : (updateSpheres s).sphereToUpdate.filter culled = [] :=
    List.filter_eq_nil_iff.mpr (fun e he => by simp [hall e he])
  apply SimState.ext
  · rw [updateSpheres_sphereToUpdate (updateSpheres s), hkeep, hreg, List.map_map]
    apply List.map_congr_left
    intro e _
    exact syncEntry_idem e
  · rw [updateSpheres_sceneMeshes (updateSpheres s), hrm]
    exact List.filter_eq_self.mpr (fun a _ => rfl)
  · rw [updateSpheres_worldBodies (updateSpheres s), hrm]
    exact List.filter_eq_self.mpr (fun a _ => rfl)
  · rw [updateSpheres_nextId]

/-- Claim C10: the frame-sync step never mutates a body: every surviving
registry entry carries a body identical to the one it had before the step,
every non-culled entry survives with its body intact, and the scene and
world lists only lose elements. -/
theorem sync_preserves_bodies (s : SimState) :
    (∀ e' ∈ (updateSpheres s).sphereToUpdate,
        ∃ e ∈ s.sphereToUpdate, e'.id = e.id ∧ e'.body = e.body)
    ∧ (∀ e ∈ s.sphereToUpdate, ¬ e.body.position.y < -50 →
        ∃ e' ∈ (updateSpheres s).sphereToUpdate, e'.id = e.id ∧ e'.body = e.body)
    ∧ ((updateSpheres s).sceneMeshes).Sublist s.sceneMeshes
    ∧ ((updateSpheres s).worldBodies).Sublist s.worldBodies := by
  refine ⟨?_, ?_, ?_, ?_⟩
  · intro e' he'
    rw [updateSpheres_sphereToUpdate] at he'
    obtain ⟨e₀, he₀, rfl⟩ := List.mem_map.mp he'
    exact ⟨e₀, (List.mem_filter.mp he₀).1, syncEntry_id e₀, syncEntry_body e₀⟩
  · intro e he h
    have hce : culled e = false := decide_eq_false h
    refine ⟨syncEntry e, ?_, syncEntry_id e, syncEntry_body e⟩
    rw [updateSpheres_sphereToUpdate]
    exact List.mem_map_of_mem _ (List.mem_filter.mpr ⟨he, by simp [hce]⟩)
  · rw [updateSpheres_sceneMeshes]
    exact List.filter_sublist _
  · rw [updateSpheres_worldBodies]
    exact List.filter_sublist _

/-- Witness for C10 at the concrete two-entry state: the entry at the
threshold survives the sync with an identical body. -/
theorem sync_preserves_bodies_witness :
    (⟨0, demoMesh, demoBody (-50)⟩ : SphereEntry) ∈ cullDemoState.sphereToUpdate
    ∧ ¬ (demoBody (-50)).position.y < -50
    ∧ ∃ e' ∈ (updateSpheres cullDemoState).sphereToUpdate,
        e'.id = (0 : ℕ) ∧ e'.body = demoBody (-50) :=
  ⟨by decide, by decide,
    (sync_preserves_bodies cullDemoState).2.1 ⟨0, demoMesh, demoBody (-50)⟩
      (by decide) (by decide)⟩

/-!
### The input state and the first-person controller

The controller multiplies the desired direction by the result of
THREE.Vector3.normalize, which divides by the vector length, a square root;
this part of the code is therefore embedded over ℝ.
-/

/-- The key codes the two handlers match on; `other` stands for every key
code that matches no case (a no-op). -/
inductive KeyCode
  | keyW
  | keyA
  | keyS
  | keyD
  | arrowUp
  | arrowLeft
  | arrowDown
  | arrowRight
  | space
  | other
  deriving DecidableEq, Repr

/-- The module-level mutable state the input handlers and the controller
block of tick read and write: the velocity and direction vectors, the camera
position, the four movement flags and the canJump flag. -/
structure ControlState where
  velocity : Vec3 ℝ
  direction : Vec3 ℝ
  cameraPos : Vec3 ℝ
  moveForward : Bool
  moveBackward : Bool
  moveLeft : Bool
  moveRight : Bool
  canJump : Bool

/-- The state at module load: zero vectors, camera at (0, 10, 0), all flags
false. -/
noncomputable def initControlState : ControlState :=
  { velocity := ⟨0, 0, 0⟩
    direction := ⟨0, 0, 0⟩
    cameraPos := ⟨0, 10, 0⟩
    moveForward := false
    moveBackward := false
    moveLeft := false
    moveRight := false
    canJump := false }

/-- handleKeyDown: movement keys set their flag; Space, only when canJump,
adds the fixed impulse 350 to velocity.y and clears canJump; other keys are
no-ops. -/
noncomputable def handleKeyDown (s : ControlState) : KeyCode → ControlState
  | .keyW | .arrowUp => { s with moveForward := true }
  | .keyA | .arrowLeft => { s with moveLeft := true }
  | .keyS | .arrowDown => { s with moveBackward := true }
  | .keyD | .arrowRight => { s with moveRight := true }
  | .space =>
    if s.canJump then
      { s with velocity := ⟨s.velocity.x, s.velocity.y + 350, s.velocity.z⟩
               canJump := false }
    else s
  | .other => s

/-- handleKeyUp: movement keys clear their flag; every other key is a
no-op. -/
noncomputable def handleKeyUp (s : ControlState) : KeyCode → ControlState
  | .keyW | .arrowUp => { s with moveForward := false }
  | .keyA | .arrowLeft => { s with moveLeft := false }
  | .keyS | .arrowDown => { s with moveBackward := false }
  | .keyD | .arrowRight => { s with moveRight := false }
  | .space | .other => s

/-- A keyboard event as dispatched to the two handlers. -/
inductive KeyEvent
  | down (code : KeyCode)
  | up (code : KeyCode)
  deriving DecidableEq, Repr

/-- The key code carried by an event. -/
def eventCode : KeyEvent → KeyCode
  | .down c => c
  | .up c => c

/-- Whether the event is a key-down. -/
def eventIsDown : KeyEvent → Bool
  | .down _ => true
  | .up _ => false

/-- Dispatch one event to the matching handler. -/
noncomputable def applyEvent (s : ControlState) : KeyEvent → ControlState
  | .down c => handleKeyDown s c
  | .up c => handleKeyUp s c

/-- Key codes mapped to the forward flag (KeyW, ArrowUp). -/
def isForwardCode : KeyCode → Bool
  | .keyW | .arrowUp => true
  | _ => false

/-- Key codes mapped to the backward flag (KeyS, ArrowDown). -/
def isBackwardCode : KeyCode → Bool
  | .keyS | .arrowDown => true
  | _ => false

/-- Key codes mapped to the left flag (KeyA, ArrowLeft). -/
def isLeftCode : KeyCode → Bool
  | .keyA | .arrowLeft => true
  | _ => false

/-- Key codes mapped to the right flag (KeyD, ArrowRight). -/
def isRightCode : KeyCode → Bool
  | .keyD | .arrowRight => true
  | _ => false

/-- Modelled from the claim wording: a movement flag should end up true iff
the most recent event whose key code maps to that flag is a key-down, and
false when no such event occurs. -/
def specMostRecentDown (isCode : KeyCode → Bool) (events : List KeyEvent) : Bool :=
  match (events.filter (fun e => isCode (eventCode e))).getLast? with
  | some e => eventIsDown e
  | none => false

lemma foldl_flag_spec (isCode : KeyCode → Bool) (proj : ControlState → Bool)
    (hdown : ∀ s c, proj (handleKeyDown s c) = if isCode c then true else proj s)
    (hup : ∀ s c, proj (handleKeyUp s c) = if isCode c then false else proj s)
    (events : List KeyEvent) (s : ControlState) :
    proj (events.foldl applyEvent s)
      = (match (events.filter (fun e => isCode (eventCode e))).getLast? with
          | some e => eventIsDown e
          | none => proj s) := by
  induction events using List.reverseRecOn generalizing s with
  | nil => rfl
  | append_singleton l e ih =>
    rw [List.foldl_append, List.foldl_cons, List.foldl_nil, List.filter_append]
    cases e with
    | down c =>
      by_cases hc : isCode c = true
      · simp [applyEvent, hdown, hc, List.filter_cons, eventCode,
          List.getLast?_concat, eventIsDown]
      · simp only [Bool.not_eq_true] at hc
        simp [applyEvent, hdown, hc, List.filter_cons, eventCode, ih]
    | up c =>
      by_cases hc : isCode c = true
      · simp [applyEvent, hup, hc, List.filter_cons, eventCode,
          List.getLast?_concat, eventIsDown]
      · simp only [Bool.not_eq_true] at hc
        simp [applyEvent, hup, hc, List.filter_cons, eventCode, ih]

/-- Claim C3: after any finite event sequence, each movement flag is true
iff the most recent event for a key code mapped to that flag is a key-down
(last-write-wins, order-sensitive). -/
theorem movement_flags_last_write_wins (events : List KeyEvent) :
    (events.foldl applyEvent initControlState).moveForward
        = specMostRecentDown isForwardCode events
    ∧ (events.foldl applyEvent initControlState).moveBackward
        = specMostRecentDown isBackwardCode events
    ∧ (events.foldl applyEvent initControlState).moveLeft
        = specMostRecentDown isLeftCode events
    ∧ (events.foldl applyEvent initControlState).moveRight
        = specMostRecentDown isRightCode events := by
  have hdF : ∀ s c, (handleKeyDown s c).moveForward
      = if isForwardCode c then true else s.moveForward := by
    intro s c
    cases c <;> simp [handleKeyDown, isForwardCode, apply_ite ControlState.moveForward]
  have huF : ∀ s c, (handleKeyUp s c).moveForward
      = if isForwardCode c then false else s.moveForward := by
    intro s c
    cases c <;> simp [handleKeyUp, isForwardCode]
  have hdB : ∀ s c, (handleKeyDown s c).moveBackward
      = if isBackwardCode c then true else s.moveBackward := by
    intro s c
    cases c <;> simp [handleKeyDown, isBackwardCode, apply_ite ControlState.moveBackward]
  have huB : ∀ s c, (handleKeyUp s c).moveBackward
      = if isBackwardCode c then false else s.moveBackward := by
    intro s c
    cases c <;> simp [handleKeyUp, isBackwardCode]
  have hdL : ∀ s c, (handleKeyDown s c).moveLeft
      = if isLeftCode c then true else s.moveLeft := by
    intro s c
    cases c <;> simp [handleKeyDown, isLeftCode, apply_ite ControlState.moveLeft]
  have huL : ∀ s c, (handleKeyUp s c).moveLeft
      = if isLeftCode c then false else s.moveLeft := by
    intro s c
    cases c <;> simp [handleKeyUp, isLeftCode]
  have hdR : ∀ s c, (handleKeyDown s c).moveRight
      = if isRightCode c then true else s.moveRight := by
    intro s c
    cases c <;> simp [handleKeyDown, isRightCode, apply_ite ControlState.moveRight]
  have huR : ∀ s c, (handleKeyUp s c).moveRight
      = if isRightCode c then false else s.moveRight := by
    intro s c
    cases c <;> simp [handleKeyUp, isRightCode]
  refine ⟨?_, ?_, ?_, ?_⟩
  · rw [foldl_flag_spec isForwardCode (fun st => st.moveForward) hdF huF events initControlState,
      specMostRecentDown]
    cases (events.filter (fun e => isForwardCode (eventCode e))).getLast? <;> rfl
  · rw [foldl_flag_spec isBackwardCode (fun st => st.moveBackward) hdB huB events initControlState,
      specMostRecentDown]
    cases (events.filter (fun e => isBackwardCode (eventCode e))).getLast? <;> rfl
  · rw [foldl_flag_spec isLeftCode (fun st => st.moveLeft) hdL huL events initControlState,
      specMostRecentDown]
    cases (events.filter (fun e => isLeftCode (eventCode e))).getLast? <;> rfl
  · rw [foldl_flag_spec isRightCode (fun st => st.moveRight) hdR huR events initControlState,
      specMostRecentDown]
    cases (events.filter (fun e => isRightCode (eventCode e))).getLast? <;> rfl

/-! ### The controller block of tick -/

/-- JavaScript Number() applied to a boolean: 1 for true, 0 for false. -/
noncomputable def boolNum (b : Bool) : ℝ := if b then 1 else 0

/-- THREE.Vector3.length: the euclidean norm. -/
noncomputable def vecLength (v : Vec3 ℝ) : ℝ :=
  Real.sqrt (v.x * v.x + v.y * v.y + v.z * v.z)

/-- The divisor THREE.Vector3.normalize divides by: length() || 1, i.e. the
length unless it is zero (falsy), in which case 1.  This guard is what keeps
a zero vector from producing 0/0 = NaN. -/
noncomputable def normalizeDivisor (v : Vec3 ℝ) : ℝ :=
  if vecLength v = 0 then 1 else vecLength v

/-- THREE.Vector3.normalize: divideScalar(length() || 1). -/
noncomputable def threeNormalize (v : Vec3 ℝ) : Vec3 ℝ :=
  ⟨v.x / normalizeDivisor v, v.y / normalizeDivisor v, v.z / normalizeDivisor v⟩

/-- The desired direction before normalization: direction.z gets
Number(moveForward) - Number(moveBackward), direction.x gets
Number(moveRight) - Number(moveLeft); direction.y is left as it was. -/
noncomputable def tickDirRaw (s : ControlState) : Vec3 ℝ :=
  ⟨boolNum s.moveRight - boolNum s.moveLeft,
   s.direction.y,
   boolNum s.moveForward - boolNum s.moveBackward⟩

/-- The direction vector after direction.normalize(). -/
noncomputable def tickDir (s : ControlState) : Vec3 ℝ :=
  threeNormalize (tickDirRaw s)

/-- velocity.x after the frame: damped (v -= v * 10 * dt), then accelerated
along the normalized direction only when moveLeft or moveRight is held. -/
noncomputable def tickVelX (s : ControlState) (dt : ℝ) : ℝ :=
  let v1x := s.velocity.x - s.velocity.x * 10.0 * dt
  if s.moveLeft || s.moveRight then v1x - (tickDir s).x * 400.0 * dt else v1x

/-- velocity.z after the frame: damped, then accelerated along the
normalized direction only when moveForward or moveBackward is held. -/
noncomputable def tickVelZ (s : ControlState) (dt : ℝ) : ℝ :=
  let v1z := s.velocity.z - s.velocity.z * 10.0 * dt
  if s.moveForward || s.moveBackward then v1z - (tickDir s).z * 400.0 * dt else v1z

/-- velocity.y after gravity (v.y -= 9.8 * 100 * dt) and before the ground
clamp. -/
noncomputable def tickVelY1 (s : ControlState) (dt : ℝ) : ℝ :=
  s.velocity.y - 9.8 * 100.0 * dt

/-- The camera position after controls.moveRight(-velocity.x * dt) and
controls.moveForward(-velocity.z * dt).  The right and forward axes are
determined by the camera orientation, which the external pointer-lock
controls own; they enter the model as parameters. -/
noncomputable def tickPos1 (s : ControlState) (dt : ℝ)
    (rightAxis forwardAxis : Vec3 ℝ) : Vec3 ℝ :=
  (s.cameraPos.add (rightAxis.smul (-(tickVelX s dt) * dt))).add
    (forwardAxis.smul (-(tickVelZ s dt) * dt))

/-- The camera height after camera.position.y += velocity.y * dt, before
the ground clamp. -/
noncomputable def preClampY (s : ControlState) (dt : ℝ)
    (rightAxis forwardAxis : Vec3 ℝ) : ℝ :=
  (tickPos1 s dt rightAxis forwardAxis).y + tickVelY1 s dt * dt

/-- The controller block of tick (the body of the isLocked branch): damping,
gravity, direction, acceleration, horizontal movement, vertical integration,
and the ground clamp (if y < 10: snap to 10, zero vertical velocity, set
canJump). -/
noncomputable def tickController (s : ControlState) (dt : ℝ)
    (rightAxis forwardAxis : Vec3 ℝ) : ControlState :=
  if preClampY s dt rightAxis forwardAxis < 10 then
    { s with
      velocity := ⟨tickVelX s dt, 0, tickVelZ s dt⟩
      direction := tickDir s
      cameraPos := ⟨(tickPos1 s dt rightAxis forwardAxis).x, 10,
                    (tickPos1 s dt rightAxis forwardAxis).z⟩
      canJump := true }
  else
    { s with
      velocity := ⟨tickVelX s dt, tickVelY1 s dt, tickVelZ s dt⟩
      direction := tickDir s
      cameraPos := ⟨(tickPos1 s dt rightAxis forwardAxis).x,
                    preClampY s dt rightAxis forwardAxis,
                    (tickPos1 s dt rightAxis forwardAxis).z⟩ }

/-- tick runs the controller block only while controls.isLocked. -/
noncomputable def controllerStep (isLocked : Bool) (s : ControlState) (dt : ℝ)
    (rightAxis forwardAxis : Vec3 ℝ) : ControlState :=
  if isLocked then tickController s dt rightAxis forwardAxis else s

lemma normalizeDivisor_ne_zero (v : Vec3 ℝ) : normalizeDivisor v ≠ 0 := by
  rw [normalizeDivisor]
  split
  · exact one_ne_zero
  · assumption

lemma threeNormalize_zero : threeNormalize ⟨0, 0, 0⟩ = ⟨0, 0, 0⟩ := by
  have h0 : vecLength ⟨0, 0, 0⟩ = 0 := by
    simp [vecLength]
  simp [threeNormalize, normalizeDivisor, h0]

/-- Claim C4: the direction computation never produces NaN.  The one
division in it, inside normalize, always has a nonzero divisor thanks to
the length() || 1 guard; and when no movement flags are set or opposite
flags cancel, the desired direction is the zero vector, its normalization
is again the zero vector, and the velocity components come out as the plain
damped values — finite real numbers. -/
theorem direction_never_nan (s : ControlState) (dt : ℝ)
    (hy : s.direction.y = 0)
    (hfb : s.moveForward = s.moveBackward)
    (hlr : s.moveLeft = s.moveRight) :
    (∀ v : Vec3 ℝ, normalizeDivisor v ≠ 0)
    ∧ tickDirRaw s = ⟨0, 0, 0⟩
    ∧ tickDir s = ⟨0, 0, 0⟩
    ∧ tickVelX s dt = s.velocity.x - s.velocity.x * 10.0 * dt
    ∧ tickVelZ s dt = s.velocity.z - s.velocity.z * 10.0 * dt := by
  have hraw : tickDirRaw s = ⟨0, 0, 0⟩ := by
    rw [tickDirRaw, hy, hfb, hlr]
    simp
  have hdir : tickDir s = ⟨0, 0, 0⟩ := by
    rw [tickDir, hraw, threeNormalize_zero]
  refine ⟨normalizeDivisor_ne_zero, hraw, hdir, ?_, ?_⟩
  · rw [tickVelX, hdir]
    simp
  · rw [tickVelZ, hdir]
    simp

/-- Witness for C4 at the initial state with dt = 1. -/
theorem direction_never_nan_witness :
    initControlState.direction.y = 0
    ∧ initControlState.moveForward = initControlState.moveBackward
    ∧ initControlState.moveLeft = initControlState.moveRight
    ∧ (tickDir initControlState = ⟨0, 0, 0⟩
      ∧ tickVelX initControlState 1
          = initControlState.velocity.x - initControlState.velocity.x * 10.0 * 1) :=
  ⟨rfl, rfl, rfl,
    (direction_never_nan initControlState 1 rfl rfl rfl).2.2.1,
    (direction_never_nan initControlState 1 rfl rfl rfl).2.2.2.1⟩

/-- A state with the camera below the eye height and a falling velocity,
reachable mid-jump or by a simulated fall; canJump is still true so the
same state also demonstrates the jump impulse. -/
noncomputable def jumpState : ControlState :=
  { velocity := ⟨0, -100, 0⟩
    direction := ⟨0, 0, 0⟩
    cameraPos := ⟨0, 5, 0⟩
    moveForward := false
    moveBackward := false
    moveLeft := false
    moveRight := false
    canJump := true }

lemma preClampY_jumpState :
    preClampY jumpState 0 ⟨1, 0, 0⟩ ⟨0, 0, 1⟩ = 5 := by
  simp [preClampY, tickPos1, tickVelY1, jumpState, Vec3.add, Vec3.smul]

/-- Counterexample to claim C5 as stated: at dt = 0 with the camera below
the eye height, the ground clamp still fires — the camera height jumps to 10
and the vertical velocity is zeroed, so the state is not left unchanged. -/
theorem tick_dt_zero_counterexample :
    (tickController jumpState 0 ⟨1, 0, 0⟩ ⟨0, 0, 1⟩).cameraPos.y
        ≠ jumpState.cameraPos.y
    ∧ (tickController jumpState 0 ⟨1, 0, 0⟩ ⟨0, 0, 1⟩).velocity.y
        ≠ jumpState.velocity.y := by
  have hcond : preClampY jumpState 0 ⟨1, 0, 0⟩ ⟨0, 0, 1⟩ < 10 := by
    rw [preClampY_jumpState]
    norm_num
  constructor
  · rw [tickController, if_pos hcond]
    show (10 : ℝ) ≠ jumpState.cameraPos.y
    show (10 : ℝ) ≠ 5
    norm_num
  · rw [tickController, if_pos hcond]
    show (0 : ℝ) ≠ jumpState.velocity.y
    show (0 : ℝ) ≠ -100
    norm_num

/-- Claim C5 (amended): a controller step with dt = 0 leaves velocity and
camera position unchanged provided the camera is at or above the eye height
10 (otherwise the ground clamp, which acts regardless of dt, snaps it up);
and the one division performed has a nonzero divisor, so no NaN arises. -/
theorem tick_dt_zero_fixes_state (s : ControlState) (rightAxis forwardAxis : Vec3 ℝ)
    (h : 10 ≤ s.cameraPos.y) :
    (tickController s 0 rightAxis forwardAxis).velocity = s.velocity
    ∧ (tickController s 0 rightAxis forwardAxis).cameraPos = s.cameraPos
    ∧ (∀ v : Vec3 ℝ, normalizeDivisor v ≠ 0) := by
  have hx : tickVelX s 0 = s.velocity.x := by
    simp [tickVelX]
  have hz : tickVelZ s 0 = s.velocity.z := by
    simp [tickVelZ]
  have hy : tickVelY1 s 0 = s.velocity.y := by
    simp [tickVelY1]
  have hp : tickPos1 s 0 rightAxis forwardAxis = s.cameraPos := by
    simp [tickPos1, Vec3.add, Vec3.smul]
  have hpre : preClampY s 0 rightAxis forwardAxis = s.cameraPos.y := by
    rw [preClampY, hp, hy]
    simp
  have hcond : ¬ preClampY s 0 rightAxis forwardAxis < 10 := by
    rw [hpre]
    exact not_lt.mpr h
  rw [tickController, if_neg hcond]
  refine ⟨?_, ?_, normalizeDivisor_ne_zero⟩
  · show (⟨tickVelX s 0, tickVelY1 s 0, tickVelZ s 0⟩ : Vec3 ℝ) = s.velocity
    rw [hx, hy, hz]
  · show (⟨(tickPos1 s 0 rightAxis forwardAxis).x, preClampY s 0 rightAxis forwardAxis,
        (tickPos1 s 0 rightAxis forwardAxis).z⟩ : Vec3 ℝ) = s.cameraPos
    rw [hp, hpre]

/-- Witness for the amended C5 at the initial state (camera at height 10). -/
theorem tick_dt_zero_fixes_state_witness :
    (10 : ℝ) ≤ initControlState.cameraPos.y
    ∧ (tickController initControlState 0 ⟨1, 0, 0⟩ ⟨0, 0, 1⟩).velocity
        = initControlState.velocity
    ∧ (tickController initControlState 0 ⟨1, 0, 0⟩ ⟨0, 0, 1⟩).cameraPos
        = initControlState.cameraPos :=
  ⟨le_refl 10,
    (tick_dt_zero_fixes_state initControlState ⟨1, 0, 0⟩ ⟨0, 0, 1⟩ (le_refl 10)).1,
    (tick_dt_zero_fixes_state initControlState ⟨1, 0, 0⟩ ⟨0, 0, 1⟩ (le_refl 10)).2.1⟩

/-- Claim C8: the jump/ground protocol.  A Space key-down adds the fixed
impulse 350 to velocity.y and clears canJump exactly when canJump is true,
and changes nothing when airborne; and whenever a controller step ends with
the camera height below the eye height 10, the step snaps it to 10, zeroes
the vertical velocity and re-enables canJump, while a step that stays at or
above 10 leaves canJump alone. -/
theorem jump_impulse_and_ground_clamp (s : ControlState) (dt : ℝ)
    (rightAxis forwardAxis : Vec3 ℝ) :
    (s.canJump = true →
        (handleKeyDown s KeyCode.space).velocity.y = s.velocity.y + 350
        ∧ (handleKeyDown s KeyCode.space).velocity.x = s.velocity.x
        ∧ (handleKeyDown s KeyCode.space).velocity.z = s.velocity.z
        ∧ (handleKeyDown s KeyCode.space).canJump = false)
    ∧ (s.canJump = false → handleKeyDown s KeyCode.space = s)
    ∧ (preClampY s dt rightAxis forwardAxis < 10 →
        (tickController s dt rightAxis forwardAxis).cameraPos.y = 10
        ∧ (tickController s dt rightAxis forwardAxis).velocity.y = 0
        ∧ (tickController s dt rightAxis forwardAxis).canJump = true)
    ∧ (¬ preClampY s dt rightAxis forwardAxis < 10 →
        (tickController s dt rightAxis forwardAxis).canJump = s.canJump
        ∧ (tickController s dt rightAxis forwardAxis).cameraPos.y
            = preClampY s dt rightAxis forwardAxis) := by
  refine ⟨?_, ?_, ?_, ?_⟩
  · intro h
    rw [handleKeyDown, if_pos h]
    exact ⟨rfl, rfl, rfl, rfl⟩
  · intro h
    rw [handleKeyDown]
    rw [h]
    rfl
  · intro h
    rw [tickController, if_pos h]
    exact ⟨rfl, rfl, rfl⟩
  · intro h
    rw [tickController, if_neg h]
    exact ⟨rfl, rfl⟩

/-- Witness for C8 at the concrete falling state: the jump impulse fires
while canJump holds, and at dt = 0 with the camera at height 5 the clamp
snaps it to 10, zeroes the fall and re-enables canJump. -/
theorem jump_impulse_and_ground_clamp_witness :
    jumpState.canJump = true
    ∧ (handleKeyDown jumpState KeyCode.space).velocity.y = jumpState.velocity.y + 350
    ∧ preClampY jumpState 0 ⟨1, 0, 0⟩ ⟨0, 0, 1⟩ < 10
    ∧ (tickController jumpState 0 ⟨1, 0, 0⟩ ⟨0, 0, 1⟩).cameraPos.y = 10
    ∧ (tickController jumpState 0 ⟨1, 0, 0⟩ ⟨0, 0, 1⟩).canJump = true := by
  have hcond : preClampY jumpState 0 ⟨1, 0, 0⟩ ⟨0, 0, 1⟩ < 10 := by
    rw [preClampY_jumpState]
    norm_num
  have h := jump_impulse_and_ground_clamp jumpState 0 ⟨1, 0, 0⟩ ⟨0, 0, 1⟩
  exact ⟨rfl, (h.1 rfl).1, hcond, (h.2.2.1 hcond).1, (h.2.2.1 hcond).2.2⟩

end ThreePhysics
